import Mathlib

/-!
Verification of the outbound voice-agent call controller (`agent.py`).

The Python source is shallowly embedded: the Python runtime values the
program manipulates are `PyVal`, raised exceptions are `PyError`, and every
externally visible action (speech synthesis, room deletion, SIP requests,
job shutdown, …) is recorded as an `Effect`, listed in the order the code
performs it.  Each `@function_tool` method of the `OutboundCaller` agent
becomes a Lean function from the agent state (plus an environment fixing
the outcomes of external provider calls) to
`Except PyError (result × state × effects)`.
-/

namespace VoiceAgent

/-- Python runtime values, restricted to the shapes `agent.py` manipulates:
`None`, booleans, integers, strings, lists and string-keyed dicts. -/
inductive PyVal where
  | none
  | bool (b : Bool)
  | int (n : Int)
  | str (s : List Char)
  | list (xs : List PyVal)
  | dict (kvs : List (List Char × PyVal))

/-- Python exceptions that the embedded fragment of `agent.py` can raise. -/
inductive PyError where
  | attributeError
  | typeError
  | keyError (k : List Char)
  deriving DecidableEq, Repr

/-- Python truthiness (`if v:`) for the embedded value shapes. -/
def truthy : PyVal → Bool
  | PyVal.none => false
  | PyVal.bool b => b
  | PyVal.int n => n != 0
  | PyVal.str s => !s.isEmpty
  | PyVal.list xs => !xs.isEmpty
  | PyVal.dict kvs => !kvs.isEmpty

/-- First-match lookup in a Python dict (keys are unique by construction
because insertion goes through `dictSet`). -/
def dictLookup (kvs : List (List Char × PyVal)) (k : List Char) : Option PyVal :=
  match kvs with
  | [] => Option.none
  | (k', v) :: t => if k' = k then some v else dictLookup t k

/-- `d[k] = v` on a dict: replace in place when the key exists, else append
(Python dicts keep insertion order). -/
def dictSet (kvs : List (List Char × PyVal)) (k : List Char) (v : PyVal) :
    List (List Char × PyVal) :=
  match kvs with
  | [] => [(k, v)]
  | (k', v') :: t => if k' = k then (k', v) :: t else (k', v') :: dictSet t k v

/-- Contiguous-substring test on character lists (Python `needle in hay`
for strings, including the empty needle). -/
def isSubstrOf (needle : List Char) : List Char → Bool
  | [] => needle.isEmpty
  | c :: t => needle.isPrefixOf (c :: t) || isSubstrOf needle t

/-- Python `==` between a value and a string (used by `in` on lists). -/
def PyVal.isStrEq : PyVal → List Char → Bool
  | PyVal.str s, k => s = k
  | _, _ => false

/-- Python `key in v` for a string key: key membership on dicts, substring
test on strings, element equality on lists, `TypeError` otherwise. -/
def pyContains (v : PyVal) (key : List Char) : Except PyError Bool :=
  match v with
  | PyVal.dict kvs => Except.ok (dictLookup kvs key).isSome
  | PyVal.str s => Except.ok (isSubstrOf key s)
  | PyVal.list xs => Except.ok (xs.any (fun x => x.isStrEq key))
  | _ => Except.error PyError.typeError

/-- Python `v[key]` for a string key: dict lookup (`KeyError` when absent),
`TypeError` on every other value shape. -/
def pyGetItem (v : PyVal) (key : List Char) : Except PyError PyVal :=
  match v with
  | PyVal.dict kvs =>
    match dictLookup kvs key with
    | some x => Except.ok x
    | Option.none => Except.error (PyError.keyError key)
  | _ => Except.error PyError.typeError

/-- Python `v[key] = val` for a string key: dict update, `TypeError` on
every other value shape (strings are immutable, list indices are ints). -/
def pySetItem (v : PyVal) (key : List Char) (val : PyVal) : Except PyError PyVal :=
  match v with
  | PyVal.dict kvs => Except.ok (PyVal.dict (dictSet kvs key val))
  | _ => Except.error PyError.typeError

/-- Externally visible actions of `agent.py`, in program order. -/
inductive Effect where
  /-- `session.generate_reply(instructions=...)`, awaited until the spoken
  turn has been fully delivered. -/
  | generateReply (instructions : String)
  /-- `await current_speech.done()`: wait for the in-flight spoken turn. -/
  | waitSpeechDone
  /-- `api.room.delete_room(DeleteRoomRequest(...))`: the room teardown. -/
  | deleteRoom
  /-- `api.sip.transfer_sip_participant(TransferSIPParticipantRequest(...))`. -/
  | transferSip (identity : String) (transferTo : PyVal)
  /-- `api.sip.create_sip_participant(CreateSIPParticipantRequest(...))`:
  the outbound dial request. -/
  | createSip (phoneNumber : PyVal)
  /-- `asyncio.sleep(seconds)`. -/
  | sleep (seconds : Nat)
  /-- `ctx.shutdown()`. -/
  | shutdown
  /-- `asyncio.create_task(session.start(...))`: fire-and-forget session start. -/
  | startSessionTask
  /-- `ctx.wait_for_participant(identity="phone_user")` followed by
  `agent.set_participant(participant)`. -/
  | waitForParticipant

/-- The mutable state of the `OutboundCaller` agent: the remote participant
reference (`None` until `set_participant`) and the resolved `dial_info`. -/
structure OutboundCaller where
  participant : Option String
  dial_info : PyVal

/-- Outcomes of the external provider calls a tool invocation can hit:
whether `transfer_sip_participant` succeeds, and whether
`session.current_speech` is a speech handle still in flight. -/
structure Env where
  transferOk : Bool
  currentSpeech : Bool
  deriving DecidableEq, Repr

/-- The result type of one tool invocation: either a Python exception that
escapes the tool, or the returned value together with the agent state after
the call and the ordered list of external effects performed. -/
abbrev ToolOutcome := Except PyError (PyVal × OutboundCaller × List Effect)

def transferKeyChars : List Char := "transfer_to".data
def phoneKeyChars : List Char := "phone_number".data
def prospectKeyChars : List Char := "prospect_name".data

/-- Instruction string of the transfer announcement (`agent.py` line 97). -/
def announceInstr : String := "let the user know you'll be transferring them"

/-- Instruction string of the failed-transfer apology (`agent.py` line 114). -/
def apologyInstr : String := "there was an error transferring the call."

/-- `OutboundCaller.set_participant`. -/
def set_participant (s : OutboundCaller) (p : String) : OutboundCaller :=
  { s with participant := some p }

/-- `OutboundCaller.hangup`: delete the room via the server API. -/
def hangup : List Effect := [Effect.deleteRoom]

/-- `OutboundCaller.transfer_call`.  Reads `self.dial_info["transfer_to"]`
(a dict subscript, so an absent key raises `KeyError`); a falsy value
returns `"cannot transfer call"` with no effect.  Otherwise it awaits the
announcement reply, then issues the SIP transfer inside `try:`; the request
construction dereferences `self.participant.identity`, so with no
participant bound the `AttributeError` is caught by the blanket
`except Exception` and the failure path (apology, then `hangup`) runs
without any transfer request having been issued. -/
def transfer_call (env : Env) (s : OutboundCaller) : ToolOutcome :=
  match pyGetItem s.dial_info transferKeyChars with
  | Except.error e => Except.error e
  | Except.ok transfer_to =>
    if truthy transfer_to = false then
      Except.ok (PyVal.str "cannot transfer call".data, s, [])
    else
      match s.participant with
      | Option.none =>
        Except.ok (PyVal.none, s,
          [Effect.generateReply announceInstr,
           Effect.generateReply apologyInstr] ++ hangup)
      | some pid =>
        if env.transferOk then
          Except.ok (PyVal.none, s,
            [Effect.generateReply announceInstr,
             Effect.transferSip pid transfer_to])
        else
          Except.ok (PyVal.none, s,
            [Effect.generateReply announceInstr,
             Effect.transferSip pid transfer_to,
             Effect.generateReply apologyInstr] ++ hangup)

/-- `OutboundCaller.end_call`.  The log line dereferences
`self.participant.identity` first (`AttributeError` when unbound), then the
in-flight speech, if any, is awaited, then `hangup` deletes the room. -/
def end_call (env : Env) (s : OutboundCaller) : ToolOutcome :=
  match s.participant with
  | Option.none => Except.error PyError.attributeError
  | some _ =>
    Except.ok (PyVal.none, s,
      (if env.currentSpeech then [Effect.waitSpeechDone] else []) ++ hangup)

/-- `OutboundCaller.look_up_availability`: logs (dereferencing
`self.participant.identity`), sleeps 3 seconds, returns fixed slots. -/
def look_up_availability (env : Env) (s : OutboundCaller) (date : String) :
    ToolOutcome :=
  match s.participant with
  | Option.none => Except.error PyError.attributeError
  | some _ =>
    Except.ok
      (PyVal.dict [("available_times".data,
        PyVal.list [PyVal.str "1pm".data, PyVal.str "2pm".data,
          PyVal.str "3pm".data])], s, [Effect.sleep 3])

/-- `OutboundCaller.confirm_appointment`: logs (dereferencing
`self.participant.identity`) and returns the confirmation marker. -/
def confirm_appointment (env : Env) (s : OutboundCaller)
    (date time : String) : ToolOutcome :=
  match s.participant with
  | Option.none => Except.error PyError.attributeError
  | some _ =>
    Except.ok (PyVal.str "reservation confirmed".data, s, [])

/-- `OutboundCaller.detected_answering_machine`: logs (dereferencing
`self.participant.identity`) and hangs up. -/
def detected_answering_machine (env : Env) (s : OutboundCaller) : ToolOutcome :=
  match s.participant with
  | Option.none => Except.error PyError.attributeError
  | some _ => Except.ok (PyVal.none, s, hangup)

/-- Run two tool invocations in sequence, threading the agent state and
concatenating their effect traces, as two successive dispatches by the
conversation policy would. -/
def runTwo (f g : OutboundCaller → ToolOutcome) (s : OutboundCaller) :
    Except PyError (PyVal × PyVal × OutboundCaller × List Effect) :=
  match f s with
  | Except.error e => Except.error e
  | Except.ok (r1, s1, e1) =>
    match g s1 with
    | Except.error e => Except.error e
    | Except.ok (r2, s2, e2) => Except.ok (r1, r2, s2, e1 ++ e2)

/-! ### Metadata resolution (`entrypoint`, lines 184–224)

`json.loads` is an external library call; it is modelled by `jsonLoads`, a
recursive-descent parser over the JSON value grammar the repository's
metadata can carry (objects, arrays, strings with the simple escapes,
integer numbers, `true`/`false`/`null`).  Exponent/fraction numbers and
`\u` escapes are outside the modelled subset (`jsonLoads` rejects them). -/

def lbraceChar : Char := Char.ofNat 123
def rbraceChar : Char := Char.ofNat 125

def jsonWs (c : Char) : Bool := c = ' ' || c = '\t' || c = '\n' || c = '\r'

def jskipWs (cs : List Char) : List Char := cs.dropWhile jsonWs

def digitsToNat (ds : List Char) : Nat :=
  ds.foldl (fun a c => a * 10 + (c.toNat - 48)) 0

/-- Parse the remainder of a JSON string literal, after the opening quote:
returns the decoded characters and the input after the closing quote. -/
def jparseStringRest : List Char → Option (List Char × List Char)
  | [] => Option.none
  | c :: t =>
    if c = '"' then some ([], t)
    else if c = '\\' then
      match t with
      | [] => Option.none
      | e :: t2 =>
        match (if e = '"' then some '"' else if e = '\\' then some '\\'
               else if e = '/' then some '/' else if e = 'b' then some (Char.ofNat 8)
               else if e = 'f' then some (Char.ofNat 12) else if e = 'n' then some '\n'
               else if e = 'r' then some '\r' else if e = 't' then some '\t'
               else Option.none : Option Char) with
        | some ch => (jparseStringRest t2).map (fun p => (ch :: p.1, p.2))
        | Option.none => Option.none
    else if c.toNat < 32 then Option.none
    else (jparseStringRest t).map (fun p => (c :: p.1, p.2))

/-- Parse a JSON unsigned integer; fraction/exponent forms are outside the
modelled subset. -/
def jparseNat (cs : List Char) : Option (Nat × List Char) :=
  let ds := cs.takeWhile Char.isDigit
  if ds.isEmpty then Option.none
  else
    let rest := cs.dropWhile Char.isDigit
    match rest with
    | c :: _ =>
      if c = '.' || c = 'e' || c = 'E' then Option.none
      else some (digitsToNat ds, rest)
    | [] => some (digitsToNat ds, [])

def jparseNumber : List Char → Option (PyVal × List Char)
  | '-' :: t => (jparseNat t).map (fun p => (PyVal.int (-(p.1 : Int)), p.2))
  | cs => (jparseNat cs).map (fun p => (PyVal.int (p.1 : Int), p.2))

mutual

/-- Parse one JSON value (fuel-indexed recursive descent). -/
def jparseValue : Nat → List Char → Option (PyVal × List Char)
  | 0, _ => Option.none
  | Nat.succ fuel, cs =>
    match jskipWs cs with
    | [] => Option.none
    | c :: t =>
      if c = 'n' then
        if "ull".data.isPrefixOf t then some (PyVal.none, t.drop 3) else Option.none
      else if c = 't' then
        if "rue".data.isPrefixOf t then some (PyVal.bool true, t.drop 3) else Option.none
      else if c = 'f' then
        if "alse".data.isPrefixOf t then some (PyVal.bool false, t.drop 4) else Option.none
      else if c = '"' then
        (jparseStringRest t).map (fun p => (PyVal.str p.1, p.2))
      else if c = '[' then
        match jskipWs t with
        | ']' :: r => some (PyVal.list [], r)
        | t' => (jparseItems fuel t').map (fun p => (PyVal.list p.1, p.2))
      else if c = lbraceChar then
        match jskipWs t with
        | c' :: r =>
          if c' = rbraceChar then some (PyVal.dict [], r)
          else
            (jparseMembers fuel (c' :: r)).map (fun p =>
              (PyVal.dict (p.1.foldl (fun acc kv => dictSet acc kv.1 kv.2) []), p.2))
        | [] => Option.none
      else jparseNumber (c :: t)

/-- Parse the comma-separated items of a non-empty JSON array, up to and
including the closing bracket. -/
def jparseItems : Nat → List Char → Option (List PyVal × List Char)
  | 0, _ => Option.none
  | Nat.succ fuel, cs =>
    match jparseValue fuel cs with
    | Option.none => Option.none
    | some (v, rest) =>
      match jskipWs rest with
      | ',' :: r => (jparseItems fuel r).map (fun p => (v :: p.1, p.2))
      | ']' :: r => some ([v], r)
      | _ => Option.none

/-- Parse the members of a non-empty JSON object, up to and including the
closing brace. -/
def jparseMembers : Nat → List Char → Option (List (List Char × PyVal) × List Char)
  | 0, _ => Option.none
  | Nat.succ fuel, cs =>
    match jskipWs cs with
    | '"' :: t =>
      match jparseStringRest t with
      | Option.none => Option.none
      | some (k, rest) =>
        match jskipWs rest with
        | ':' :: r =>
          match jparseValue fuel r with
          | Option.none => Option.none
          | some (v, rest2) =>
            match jskipWs rest2 with
            | ',' :: r2 => (jparseMembers fuel r2).map (fun p => ((k, v) :: p.1, p.2))
            | c2 :: r2 => if c2 = rbraceChar then some ([(k, v)], r2) else Option.none
            | [] => Option.none
        | _ => Option.none
    | _ => Option.none

end

/-- Model of `json.loads` on the embedded subset: one value, surrounded by
optional whitespace; anything else is a `JSONDecodeError`, i.e. `none`. -/
def jsonLoads (s : List Char) : Option PyVal :=
  match jparseValue (s.length + 1) s with
  | some (v, rest) => if (jskipWs rest).isEmpty then some v else Option.none
  | Option.none => Option.none

/-! ### The regex fallback (`entrypoint`, lines 196–206)

`re.search(r'phone_number[\x27"\s:]+([+\d]+)', md)`: the leftmost position
where the literal label is followed by at least one separator character
(quote, whitespace or colon) and then at least one `[+\d]` character wins;
the capture is the maximal `[+\d]` run (the two character classes are
disjoint, so greedy matching needs no backtracking). -/

/-- The separator class `[\x27"\s:]`: single quote (39), double quote (34),
the `\s` whitespace characters space (32), tab (9), newline (10), carriage
return (13), vertical tab (11), form feed (12), and colon (58). -/
def isSepChar (c : Char) : Bool :=
  c.toNat = 39 || c.toNat = 34 || c.toNat = 32 || c.toNat = 9 ||
  c.toNat = 10 || c.toNat = 13 || c.toNat = 11 || c.toNat = 12 ||
  c.toNat = 58

/-- The token class `[+\d]`: plus sign (43) or an ASCII digit (48–57). -/
def isPhoneTokenChar (c : Char) : Bool :=
  c.toNat = 43 || (48 ≤ c.toNat && c.toNat ≤ 57)

/-- Try the pattern anchored at the start of `s`: the literal `label`, one
or more separator characters, then the captured `[+\d]+` token. -/
def matchLabelAt (label : List Char) (s : List Char) : Option (List Char) :=
  if label.isPrefixOf s then
    let r0 := s.drop label.length
    let seps := r0.takeWhile isSepChar
    if seps.isEmpty then Option.none
    else
      let r1 := r0.dropWhile isSepChar
      let tok := r1.takeWhile isPhoneTokenChar
      if tok.isEmpty then Option.none else some tok
  else Option.none

/-- `re.search`: try `matchLabelAt` at every start position, left to right. -/
def searchLabel (label : List Char) : List Char → Option (List Char)
  | [] => matchLabelAt label []
  | c :: t =>
    match matchLabelAt label (c :: t) with
    | some tok => some tok
    | Option.none => searchLabel label t

/-- The fallback-extraction dict built when `json.loads` fails: the
`phone_number` capture, then the `transfer_to` capture, each only when its
regex matched. -/
def regexExtract (s : List Char) : List (List Char × PyVal) :=
  let d0 : List (List Char × PyVal) := []
  let d1 :=
    match searchLabel phoneKeyChars s with
    | some tok => dictSet d0 phoneKeyChars (PyVal.str tok)
    | Option.none => d0
  match searchLabel transferKeyChars s with
  | some tok => dictSet d1 transferKeyChars (PyVal.str tok)
  | Option.none => d1

/-- Lines 186–214: turn the raw job metadata into the `dial_info` value.
Falsy metadata gives `{}`; a string is JSON-parsed, with the regex
extraction as fallback on a decode error; any non-string truthy value is
used directly.  (The surrounding `except Exception` never fires: every
operation in the guarded region is total.) -/
def parseMetadata (metadata : PyVal) : PyVal :=
  if truthy metadata then
    match metadata with
    | PyVal.str s =>
      match jsonLoads s with
      | some v => v
      | Option.none => PyVal.dict (regexExtract s)
    | other => other
  else PyVal.dict []

/-- One `if key not in dial_info: dial_info[key] = v` step (lines 217–222).
Note both the membership test and the assignment can raise when
`dial_info` is not a dict — these lines sit outside the `try`. -/
def setDefault (d : PyVal) (key : List Char) (v : PyVal) : Except PyError PyVal :=
  match pyContains d key with
  | Except.error e => Except.error e
  | Except.ok true => Except.ok d
  | Except.ok false => pySetItem d key v

/-- Lines 217–222: fill `phone_number`, `transfer_to`, `prospect_name`
from the environment defaults / the `"there"` placeholder when absent. -/
def applyDefaults (defPhone defTransfer : List Char) (d : PyVal) :
    Except PyError PyVal :=
  match setDefault d phoneKeyChars (PyVal.str defPhone) with
  | Except.error e => Except.error e
  | Except.ok d1 =>
    match setDefault d1 transferKeyChars (PyVal.str defTransfer) with
    | Except.error e => Except.error e
    | Except.ok d2 => setDefault d2 prospectKeyChars (PyVal.str "there".data)

/-- Metadata resolution end to end (lines 184–222): parse, then defaults.
`defPhone` and `defTransfer` are `DEFAULT_PHONE_NUMBER` and
`DEFAULT_TRANSFER_NUMBER` from the process environment. -/
def resolveDialInfo (defPhone defTransfer : List Char) (metadata : PyVal) :
    Except PyError PyVal :=
  applyDefaults defPhone defTransfer (parseMetadata metadata)

/-- Lines 245–284: the session-start task is spawned, then the dial guard
reads `dial_info["phone_number"]`; a falsy number shuts the job down
without dialing, otherwise the dial request is issued and, depending on the
provider outcome `dialOk`, the participant is awaited and bound or the job
is shut down (`except api.TwirpError`). -/
def entrypointDial (dialOk : Bool) (dial_info : PyVal) : Except PyError (List Effect) :=
  match pyGetItem dial_info phoneKeyChars with
  | Except.error e => Except.error e
  | Except.ok phone =>
    if truthy phone = false then
      Except.ok [Effect.startSessionTask, Effect.shutdown]
    else if dialOk then
      Except.ok [Effect.startSessionTask, Effect.createSip phone,
        Effect.waitForParticipant]
    else
      Except.ok [Effect.startSessionTask, Effect.createSip phone,
        Effect.shutdown]

/-- A session in mid-call: the dialed party answered and was bound via
`set_participant`, and `dial_info` carries a number and a transfer target. -/
def sessionActive : OutboundCaller :=
  ⟨some "phone_user",
   PyVal.dict [(phoneKeyChars, PyVal.str "+15551234567".data),
     (transferKeyChars, PyVal.str "+15557654321".data),
     (prospectKeyChars, PyVal.str "there".data)]⟩

/-- An environment with a healthy transfer provider and no speech in flight. -/
def envQuiet : Env := ⟨true, false⟩

/-- Recognizer for the room-teardown request, for counting teardowns. -/
def isDeleteRoom : Effect → Bool
  | Effect.deleteRoom => true
  | _ => false

/-- The dict produced by one `setDefault` step on a dict input. -/
def setDefaultD (kvs : List (List Char × PyVal)) (k : List Char) (v : PyVal) :
    List (List Char × PyVal) :=
  if (dictLookup kvs k).isSome then kvs else dictSet kvs k v

/-- Shape test for dicts. -/
def PyVal.isDict : PyVal → Bool
  | PyVal.dict _ => true
  | _ => false

/-- The spec's first scenario metadata, `{"phone_number":"+15551234567"}`,
as the raw character list. -/
def mdPhoneOnly : List Char :=
  lbraceChar :: "\"phone_number\": \"+15551234567\"".data ++ [rbraceChar]

/-- What metadata resolution produces from `mdPhoneOnly` with empty
environment defaults. -/
def kvsPhoneOnly : List (List Char × PyVal) :=
  [(phoneKeyChars, PyVal.str "+15551234567".data),
   (transferKeyChars, PyVal.str []),
   (prospectKeyChars, PyVal.str "there".data)]

/-- What metadata resolution produces from the empty JSON object with empty
environment defaults: every field filled from a default. -/
def dialInfoAllDefaults : PyVal :=
  PyVal.dict [(phoneKeyChars, PyVal.str []),
    (transferKeyChars, PyVal.str []),
    (prospectKeyChars, PyVal.str "there".data)]

/-! ### Dictionary and defaults lemmas -/

theorem dictLookup_dictSet_self (kvs : List (List Char × PyVal))
    (k : List Char) (v : PyVal) : dictLookup (dictSet kvs k v) k = some v := by
  induction kvs with
  | nil => simp [dictSet, dictLookup]
  | cons hd t ih =>
    obtain ⟨k', v'⟩ := hd
    by_cases hk : k' = k
    · simp [dictSet, dictLookup, hk]
    · simp [dictSet, dictLookup, hk, ih]

theorem dictLookup_dictSet_ne (kvs : List (List Char × PyVal))
    (k k' : List Char) (v : PyVal) (h : k ≠ k') :
    dictLookup (dictSet kvs k v) k' = dictLookup kvs k' := by
  induction kvs with
  | nil => simp [dictSet, dictLookup, h]
  | cons hd t ih =>
    obtain ⟨k0, v0⟩ := hd
    by_cases hk : k0 = k
    · subst hk
      simp [dictSet, dictLookup, h]
    · simp [dictSet, dictLookup, hk, ih]

theorem setDefault_dict (kvs : List (List Char × PyVal)) (k : List Char)
    (v : PyVal) :
    setDefault (PyVal.dict kvs) k v = Except.ok (PyVal.dict (setDefaultD kvs k v)) := by
  unfold setDefault pyContains pySetItem setDefaultD
  cases h : (dictLookup kvs k).isSome <;> simp [h]

theorem lookup_setDefaultD_self (kvs : List (List Char × PyVal))
    (k : List Char) (v : PyVal) :
    (dictLookup (setDefaultD kvs k v) k).isSome = true := by
  unfold setDefaultD
  cases h : (dictLookup kvs k).isSome <;>
    simp [h, dictLookup_dictSet_self]

theorem lookup_setDefaultD_ne (kvs : List (List Char × PyVal))
    (k k' : List Char) (v : PyVal) (h : k ≠ k') :
    dictLookup (setDefaultD kvs k v) k' = dictLookup kvs k' := by
  unfold setDefaultD
  cases hh : (dictLookup kvs k).isSome <;>
    simp [dictLookup_dictSet_ne kvs k k' v h]

theorem lookup_setDefaultD_some (kvs : List (List Char × PyVal))
    (k k' : List Char) (v v' : PyVal) (h : dictLookup kvs k' = some v') :
    dictLookup (setDefaultD kvs k v) k' = some v' := by
  by_cases hk : k = k'
  · subst hk
    unfold setDefaultD
    simp [h]
  · rw [lookup_setDefaultD_ne kvs k k' v hk]
    exact h

theorem applyDefaults_dict (dp dt : List Char) (kvs : List (List Char × PyVal)) :
    applyDefaults dp dt (PyVal.dict kvs) =
      Except.ok (PyVal.dict (setDefaultD (setDefaultD (setDefaultD kvs
        phoneKeyChars (PyVal.str dp)) transferKeyChars (PyVal.str dt))
        prospectKeyChars (PyVal.str "there".data))) := by
  simp [applyDefaults, setDefault_dict]

theorem setDefault_nondict (d : PyVal) (k : List Char) (v : PyVal)
    (hd : d.isDict = false) :
    setDefault d k v = Except.ok d ∨ ∃ e, setDefault d k v = Except.error e := by
  cases d with
  | dict kvs => simp [PyVal.isDict] at hd
  | none => exact Or.inr ⟨PyError.typeError, rfl⟩
  | bool b => exact Or.inr ⟨PyError.typeError, rfl⟩
  | int n => exact Or.inr ⟨PyError.typeError, rfl⟩
  | str s =>
    cases h : isSubstrOf k s <;>
      simp [setDefault, pyContains, pySetItem, h]
  | list xs =>
    cases h : xs.any (fun x => x.isStrEq k) <;>
      simp [setDefault, pyContains, pySetItem, h]

theorem applyDefaults_nondict (dp dt : List Char) (d : PyVal)
    (hd : d.isDict = false) :
    applyDefaults dp dt d = Except.ok d ∨
      ∃ e, applyDefaults dp dt d = Except.error e := by
  unfold applyDefaults
  rcases setDefault_nondict d phoneKeyChars (PyVal.str dp) hd with h1 | ⟨e, h1⟩
  · rcases setDefault_nondict d transferKeyChars (PyVal.str dt) hd with h2 | ⟨e, h2⟩
    · rcases setDefault_nondict d prospectKeyChars (PyVal.str "there".data) hd with
        h3 | ⟨e, h3⟩
      · exact Or.inl (by simp [h1, h2, h3])
      · exact Or.inr ⟨e, by simp [h1, h2, h3]⟩
    · exact Or.inr ⟨e, by simp [h1, h2]⟩
  · exact Or.inr ⟨e, by simp [h1]⟩

theorem phoneKey_ne_transferKey : phoneKeyChars ≠ transferKeyChars := by decide

theorem phoneKey_ne_prospectKey : phoneKeyChars ≠ prospectKeyChars := by decide

theorem transferKey_ne_prospectKey : transferKeyChars ≠ prospectKeyChars := by decide

/-- Whenever metadata resolution returns a dict without raising, all three
keys are populated. -/
theorem resolve_ok_dict (dp dt : List Char) (md : PyVal)
    (kvs : List (List Char × PyVal))
    (h : resolveDialInfo dp dt md = Except.ok (PyVal.dict kvs)) :
    (dictLookup kvs phoneKeyChars).isSome = true ∧
    (dictLookup kvs transferKeyChars).isSome = true ∧
    (dictLookup kvs prospectKeyChars).isSome = true := by
  unfold resolveDialInfo at h
  cases hm : parseMetadata md with
  | dict kvs0 =>
    rw [hm, applyDefaults_dict] at h
    have hk :
        setDefaultD (setDefaultD (setDefaultD kvs0 phoneKeyChars (PyVal.str dp))
          transferKeyChars (PyVal.str dt)) prospectKeyChars
          (PyVal.str "there".data) = kvs := by
      cases h
      rfl
    subst hk
    refine ⟨?_, ?_, lookup_setDefaultD_self _ _ _⟩
    · rw [lookup_setDefaultD_ne _ _ _ _ (Ne.symm phoneKey_ne_prospectKey),
        lookup_setDefaultD_ne _ _ _ _ (Ne.symm phoneKey_ne_transferKey)]
      exact lookup_setDefaultD_self _ _ _
    · rw [lookup_setDefaultD_ne _ _ _ _ (Ne.symm transferKey_ne_prospectKey)]
      exact lookup_setDefaultD_self _ _ _
  | none =>
    rw [hm] at h
    rcases applyDefaults_nondict dp dt PyVal.none rfl with h1 | ⟨e, h1⟩ <;>
      rw [h1] at h <;> cases h
  | bool b =>
    rw [hm] at h
    rcases applyDefaults_nondict dp dt (PyVal.bool b) rfl with h1 | ⟨e, h1⟩ <;>
      rw [h1] at h <;> cases h
  | int n =>
    rw [hm] at h
    rcases applyDefaults_nondict dp dt (PyVal.int n) rfl with h1 | ⟨e, h1⟩ <;>
      rw [h1] at h <;> cases h
  | str s =>
    rw [hm] at h
    rcases applyDefaults_nondict dp dt (PyVal.str s) rfl with h1 | ⟨e, h1⟩ <;>
      rw [h1] at h <;> cases h
  | list xs =>
    rw [hm] at h
    rcases applyDefaults_nondict dp dt (PyVal.list xs) rfl with h1 | ⟨e, h1⟩ <;>
      rw [h1] at h <;> cases h

/-- `applyDefaults` on a dict never overwrites an existing binding. -/
theorem applyDefaults_dict_lookup (dp dt : List Char)
    (kvs : List (List Char × PyVal)) (k : List Char) (v : PyVal)
    (hk : dictLookup kvs k = some v) :
    ∃ kvs', applyDefaults dp dt (PyVal.dict kvs) = Except.ok (PyVal.dict kvs') ∧
      dictLookup kvs' k = some v := by
  refine ⟨_, applyDefaults_dict dp dt kvs, ?_⟩
  exact lookup_setDefaultD_some _ _ _ _ _
    (lookup_setDefaultD_some _ _ _ _ _ (lookup_setDefaultD_some _ _ _ _ _ hk))

/-! ### Regex-fallback lemmas -/

theorem isPrefixOf_append_self (l u : List Char) : l.isPrefixOf (l ++ u) = true := by
  induction l with
  | nil => simp [List.isPrefixOf]
  | cons c t ih => simp [List.isPrefixOf, ih]

theorem takeWhile_append_sat (p : Char → Bool) (xs ys : List Char)
    (hxs : ∀ c ∈ xs, p c = true)
    (hys : ∀ c, ys.head? = some c → p c = false) :
    (xs ++ ys).takeWhile p = xs := by
  induction xs with
  | nil =>
    cases ys with
    | nil => rfl
    | cons c t => simp [List.takeWhile_cons, hys c rfl]
  | cons c t ih =>
    have hc := hxs c (by simp)
    simp only [List.cons_append, List.takeWhile_cons, hc, if_true]
    rw [ih (fun c' hc' => hxs c' (by simp [hc']))]

theorem dropWhile_append_sat (p : Char → Bool) (xs ys : List Char)
    (hxs : ∀ c ∈ xs, p c = true)
    (hys : ∀ c, ys.head? = some c → p c = false) :
    (xs ++ ys).dropWhile p = ys := by
  induction xs with
  | nil =>
    cases ys with
    | nil => rfl
    | cons c t => simp [List.dropWhile_cons, hys c rfl]
  | cons c t ih =>
    have hc := hxs c (by simp)
    simp only [List.cons_append, List.dropWhile_cons, hc, if_true]
    exact ih (fun c' hc' => hxs c' (by simp [hc']))

/-- The two regex character classes are disjoint, so the greedy separator
run ends exactly where the captured token begins. -/
theorem phone_not_sep (c : Char) (h : isPhoneTokenChar c = true) :
    isSepChar c = false := by
  unfold isPhoneTokenChar at h
  unfold isSepChar
  simp only [Bool.or_eq_true, Bool.and_eq_true, decide_eq_true_eq] at h
  simp only [Bool.or_eq_false_iff, decide_eq_false_iff_not]
  omega

theorem matchLabelAt_append (label seps tok rest : List Char)
    (hseps0 : seps ≠ []) (hseps : ∀ c ∈ seps, isSepChar c = true)
    (htok0 : tok ≠ []) (htok : ∀ c ∈ tok, isPhoneTokenChar c = true)
    (hrest : ∀ c, rest.head? = some c → isPhoneTokenChar c = false) :
    matchLabelAt label (label ++ (seps ++ (tok ++ rest))) = some tok := by
  have hhead : ∀ c, (tok ++ rest).head? = some c → isSepChar c = false := by
    intro c hc
    cases tok with
    | nil => exact absurd rfl htok0
    | cons c0 t0 =>
      have hc0 : c0 = c := by simpa using hc
      rw [← hc0]
      exact phone_not_sep c0 (htok c0 (by simp))
  unfold matchLabelAt
  rw [isPrefixOf_append_self]
  simp only [if_true, List.drop_left,
    takeWhile_append_sat isSepChar seps (tok ++ rest) hseps hhead,
    dropWhile_append_sat isSepChar seps (tok ++ rest) hseps hhead,
    takeWhile_append_sat isPhoneTokenChar tok rest htok hrest]
  cases seps with
  | nil => exact absurd rfl hseps0
  | cons cs ts =>
    cases tok with
    | nil => exact absurd rfl htok0
    | cons ct tt => simp

theorem searchLabel_of_matchLabelAt (label s tok : List Char)
    (h : matchLabelAt label s = some tok) : searchLabel label s = some tok := by
  cases s with
  | nil => simpa [searchLabel] using h
  | cons c t =>
    unfold searchLabel
    rw [h]

theorem searchLabel_append (label pre u : List Char)
    (hpre : ∀ n, n < pre.length →
      matchLabelAt label (List.drop n (pre ++ u)) = Option.none) :
    searchLabel label (pre ++ u) = searchLabel label u := by
  induction pre with
  | nil => rfl
  | cons c t ih =>
    have h0 := hpre 0 (by simp)
    simp only [List.drop_zero, List.cons_append] at h0
    show (match matchLabelAt label (c :: (t ++ u)) with
      | some tok => some tok
      | Option.none => searchLabel label (t ++ u)) = searchLabel label u
    rw [h0]
    exact ih (fun n hn => by
      have := hpre (n + 1) (by simpa using Nat.succ_lt_succ hn)
      simpa using this)

/-- When `json.loads` fails and the phone regex finds a capture, the
resolved dict binds `phone_number` to exactly that capture. -/
theorem resolve_regex_phone (dp dt s tok : List Char)
    (hjson : jsonLoads s = Option.none) (hs : s ≠ [])
    (hsearch : searchLabel phoneKeyChars s = some tok) :
    ∃ kvs, resolveDialInfo dp dt (PyVal.str s) = Except.ok (PyVal.dict kvs) ∧
      dictLookup kvs phoneKeyChars = some (PyVal.str tok) := by
  have hE : s.isEmpty = false := by
    cases s with
    | nil => exact absurd rfl hs
    | cons c t => rfl
  have hparse : parseMetadata (PyVal.str s) = PyVal.dict (regexExtract s) := by
    simp [parseMetadata, truthy, hE, hjson]
  have hlook : dictLookup (regexExtract s) phoneKeyChars = some (PyVal.str tok) := by
    unfold regexExtract
    rw [hsearch]
    cases hts : searchLabel transferKeyChars s with
    | none => simp [dictSet, dictLookup]
    | some tok2 =>
      rw [dictLookup_dictSet_ne _ _ _ _ (Ne.symm phoneKey_ne_transferKey)]
      simp [dictSet, dictLookup]
  obtain ⟨kvs', h1, h2⟩ :=
    applyDefaults_dict_lookup dp dt (regexExtract s) phoneKeyChars
      (PyVal.str tok) hlook
  refine ⟨kvs', ?_, h2⟩
  unfold resolveDialInfo
  rw [hparse]
  exact h1

/-! ### The claims -/

/-- **C1, counterexample.**  The claim says that once the call has ended,
every tool invocation returns a defined "call already ended" outcome
instead of acting.  Concretely: `end_call` ends the call (room deleted)
and returns the session record unchanged, so the second and third
conjuncts are invocations made after the call has ended — and they act
exactly as before: `detected_answering_machine` issues the room-deletion
request again, and `confirm_appointment` returns its normal
`"reservation confirmed"` payload.  No rejection outcome exists. -/
theorem C1_counterexample :
    (end_call envQuiet sessionActive =
      Except.ok (PyVal.none, sessionActive, [Effect.deleteRoom])) ∧
    (detected_answering_machine envQuiet sessionActive =
      Except.ok (PyVal.none, sessionActive, [Effect.deleteRoom])) ∧
    (confirm_appointment envQuiet sessionActive "next Tuesday" "3pm" =
      Except.ok (PyVal.str "reservation confirmed".data, sessionActive, [])) ∧
    ([Effect.deleteRoom] : List Effect) ≠ [] :=
  ⟨rfl, rfl, rfl, by simp⟩

/-- **C1, amended.**  The tools maintain no terminal call state:
`end_call` hands back the session record unchanged, so every tool invoked
after the call has ended behaves exactly as it did before — a later
`detected_answering_machine` performs the room deletion again and a later
`confirm_appointment` returns its normal confirmation; no
"call already ended" outcome exists anywhere in the dispatch surface. -/
theorem C1_amended (env : Env) (s : OutboundCaller) (pid : String)
    (h : s.participant = some pid) :
    end_call env s = Except.ok (PyVal.none, s,
      (if env.currentSpeech then [Effect.waitSpeechDone] else []) ++
        [Effect.deleteRoom]) ∧
    detected_answering_machine env s =
      Except.ok (PyVal.none, s, [Effect.deleteRoom]) ∧
    (∀ d t, confirm_appointment env s d t =
      Except.ok (PyVal.str "reservation confirmed".data, s, [])) := by
  unfold end_call detected_answering_machine confirm_appointment hangup
  rw [h]
  exact ⟨rfl, rfl, fun d t => rfl⟩

/-- Witness for `C1_amended` at the concrete mid-call session. -/
theorem C1_amended_witness :
    end_call envQuiet sessionActive = Except.ok (PyVal.none, sessionActive,
      (if envQuiet.currentSpeech then [Effect.waitSpeechDone] else []) ++
        [Effect.deleteRoom]) ∧
    detected_answering_machine envQuiet sessionActive =
      Except.ok (PyVal.none, sessionActive, [Effect.deleteRoom]) ∧
    (∀ d t, confirm_appointment envQuiet sessionActive d t =
      Except.ok (PyVal.str "reservation confirmed".data, sessionActive, [])) :=
  C1_amended envQuiet sessionActive "phone_user" rfl

/-- **C2, counterexample.**  The claim says two sequential `end_call`
invocations yield exactly one delete-room request, the second returning a
defined "already ended" result.  In the code, both invocations run the
same unguarded path: the combined effect trace holds two delete-room
requests, and the second invocation returns plain `None`, like the first,
not a distinguished result. -/
theorem C2_counterexample :
    runTwo (end_call envQuiet) (end_call envQuiet) sessionActive =
      Except.ok (PyVal.none, PyVal.none, sessionActive,
        [Effect.deleteRoom, Effect.deleteRoom]) ∧
    List.countP isDeleteRoom [Effect.deleteRoom, Effect.deleteRoom] = 2 ∧
    (2 : Nat) ≠ 1 :=
  ⟨rfl, rfl, by decide⟩

/-- **C2, amended.**  Invoking `end_call` twice in sequence on the same
session performs two room-teardown requests: the second invocation repeats
the teardown exactly like the first and returns the same plain `None`
result, with no "already ended" result anywhere. -/
theorem C2_amended (env : Env) (s : OutboundCaller) (pid : String)
    (h : s.participant = some pid) :
    ∃ effs, runTwo (end_call env) (end_call env) s =
      Except.ok (PyVal.none, PyVal.none, s, effs) ∧
      List.countP isDeleteRoom effs = 2 := by
  cases hcs : env.currentSpeech
  · exact ⟨[Effect.deleteRoom, Effect.deleteRoom],
      by simp [runTwo, end_call, hangup, h, hcs], rfl⟩
  · exact ⟨[Effect.waitSpeechDone, Effect.deleteRoom,
      Effect.waitSpeechDone, Effect.deleteRoom],
      by simp [runTwo, end_call, hangup, h, hcs], rfl⟩

/-- Witness for `C2_amended` at the concrete mid-call session. -/
theorem C2_amended_witness :
    ∃ effs, runTwo (end_call envQuiet) (end_call envQuiet) sessionActive =
      Except.ok (PyVal.none, PyVal.none, sessionActive, effs) ∧
      List.countP isDeleteRoom effs = 2 :=
  C2_amended envQuiet sessionActive "phone_user" rfl

/-- **C3.**  After metadata resolution the `transfer_to` key is always
present (so "absent" cannot reach `transfer_call` past the resolver), and
whenever its value is empty/falsy, `transfer_call` returns the
`"cannot transfer call"` result with no announcement, no provider request
and the session unchanged — the call is still live. -/
theorem C3_transfer_requires_target (dp dt : List Char) (md : PyVal)
    (kvs : List (List Char × PyVal)) (env : Env) (part : Option String)
    (h : resolveDialInfo dp dt md = Except.ok (PyVal.dict kvs)) :
    ∃ tt, dictLookup kvs transferKeyChars = some tt ∧
      (truthy tt = false →
        transfer_call env ⟨part, PyVal.dict kvs⟩ =
          Except.ok (PyVal.str "cannot transfer call".data,
            ⟨part, PyVal.dict kvs⟩, [])) := by
  obtain ⟨-, h2, -⟩ := resolve_ok_dict dp dt md kvs h
  obtain ⟨tt, htt⟩ := Option.isSome_iff_exists.mp h2
  refine ⟨tt, htt, fun hf => ?_⟩
  unfold transfer_call pyGetItem
  simp [htt, hf]

/-- Witness for `C3_transfer_requires_target`: the spec's scenario
metadata with no `transfer_to` and empty environment defaults. -/
theorem C3_witness :
    ∃ tt, dictLookup kvsPhoneOnly transferKeyChars = some tt ∧
      (truthy tt = false →
        transfer_call envQuiet ⟨some "phone_user", PyVal.dict kvsPhoneOnly⟩ =
          Except.ok (PyVal.str "cannot transfer call".data,
            ⟨some "phone_user", PyVal.dict kvsPhoneOnly⟩, [])) :=
  C3_transfer_requires_target [] [] (PyVal.str mdPhoneOnly) kvsPhoneOnly
    envQuiet (some "phone_user") rfl

/-- **C4.**  In every successful `transfer_call` trace, any provider
transfer request is strictly preceded by the fully delivered announcement
turn: the SIP transfer effect can only appear at a later index than the
announcement `generate_reply`. -/
theorem C4_announce_before_transfer (env : Env) (s : OutboundCaller)
    (r : PyVal) (s' : OutboundCaller) (effs : List Effect)
    (h : transfer_call env s = Except.ok (r, s', effs)) :
    ∀ k pid tv, effs.get? k = some (Effect.transferSip pid tv) →
      ∃ j, j < k ∧ effs.get? j = some (Effect.generateReply announceInstr) := by
  intro k pid tv hk
  unfold transfer_call at h
  split at h
  · exact Except.noConfusion h
  · split at h
    · simp only [Except.ok.injEq, Prod.mk.injEq] at h
      obtain ⟨-, -, he⟩ := h
      subst he
      simp [List.get?] at hk
    · split at h
      · simp only [hangup, Except.ok.injEq, Prod.mk.injEq] at h
        obtain ⟨-, -, he⟩ := h
        subst he
        rcases k with _ | _ | _ | k <;> simp [List.get?] at hk
      · split at h
        · simp only [Except.ok.injEq, Prod.mk.injEq] at h
          obtain ⟨-, -, he⟩ := h
          subst he
          rcases k with _ | _ | k
          · simp [List.get?] at hk
          · exact ⟨0, by omega, rfl⟩
          · simp [List.get?] at hk
        · simp only [hangup, Except.ok.injEq, Prod.mk.injEq] at h
          obtain ⟨-, -, he⟩ := h
          subst he
          rcases k with _ | _ | _ | _ | k
          · simp [List.get?] at hk
          · exact ⟨0, by omega, rfl⟩
          · simp [List.get?] at hk
          · simp [List.get?] at hk
          · simp [List.get?] at hk

/-- Witness for `C4_announce_before_transfer`: a successful transfer from
the concrete mid-call session; the transfer request sits at index 1, the
announcement before it at index 0. -/
theorem C4_witness :
    ∃ j, j < 1 ∧
      ([Effect.generateReply announceInstr,
        Effect.transferSip "phone_user" (PyVal.str "+15557654321".data)].get? j =
        some (Effect.generateReply announceInstr)) :=
  C4_announce_before_transfer envQuiet sessionActive PyVal.none sessionActive
    [Effect.generateReply announceInstr,
     Effect.transferSip "phone_user" (PyVal.str "+15557654321".data)]
    rfl 1 "phone_user" (PyVal.str "+15557654321".data) rfl

/-- **C5.**  When the provider transfer request fails, the caller hears
the apology and then the room is torn down, in that order: the trace is
announcement, the failed transfer request, the apology `generate_reply`,
and only then `deleteRoom`.  The call is not left live and the caller is
not dropped silently. -/
theorem C5_failed_transfer_apologizes_then_hangs_up (env : Env)
    (s : OutboundCaller) (pid : String) (tt : PyVal)
    (hp : s.participant = some pid)
    (hg : pyGetItem s.dial_info transferKeyChars = Except.ok tt)
    (htr : truthy tt = true) (hfail : env.transferOk = false) :
    transfer_call env s = Except.ok (PyVal.none, s,
      [Effect.generateReply announceInstr, Effect.transferSip pid tt,
       Effect.generateReply apologyInstr, Effect.deleteRoom]) := by
  unfold transfer_call
  simp [hg, hp, htr, hfail, hangup]

/-- Witness for `C5_failed_transfer_apologizes_then_hangs_up` at the
concrete mid-call session with a failing transfer provider. -/
theorem C5_witness :
    transfer_call ⟨false, false⟩ sessionActive =
      Except.ok (PyVal.none, sessionActive,
        [Effect.generateReply announceInstr,
         Effect.transferSip "phone_user" (PyVal.str "+15557654321".data),
         Effect.generateReply apologyInstr, Effect.deleteRoom]) :=
  C5_failed_transfer_apologizes_then_hangs_up ⟨false, false⟩ sessionActive
    "phone_user" (PyVal.str "+15557654321".data) rfl rfl rfl rfl

/-- **C6.**  Every successful `end_call` while a spoken turn is in flight
first awaits that speech and only then issues the room deletion: the
effect trace is exactly wait-for-speech followed by delete-room, so the
deletion never precedes completion of the in-flight turn. -/
theorem C6_end_call_waits_for_speech (env : Env) (s : OutboundCaller)
    (r : PyVal) (s' : OutboundCaller) (effs : List Effect)
    (h : end_call env s = Except.ok (r, s', effs))
    (hcs : env.currentSpeech = true) :
    effs = [Effect.waitSpeechDone, Effect.deleteRoom] := by
  unfold end_call at h
  split at h
  · exact Except.noConfusion h
  · simp only [hcs, if_true, hangup, Except.ok.injEq, Prod.mk.injEq] at h
    obtain ⟨-, -, he⟩ := h
    exact he.symm

/-- Witness for `C6_end_call_waits_for_speech`: the concrete mid-call
session with a spoken turn in flight. -/
theorem C6_witness :
    ([Effect.waitSpeechDone, Effect.deleteRoom] : List Effect) =
      [Effect.waitSpeechDone, Effect.deleteRoom] :=
  C6_end_call_waits_for_speech ⟨true, true⟩ sessionActive PyVal.none
    sessionActive [Effect.waitSpeechDone, Effect.deleteRoom] rfl rfl

/-- **C7.**  For any metadata whose resolved phone number is the empty
string, the job's dial phase issues no `create_sip_participant` request:
it starts the session task and immediately shuts the job down. -/
theorem C7_no_dial_without_number (dp dt : List Char) (md d : PyVal)
    (dialOk : Bool)
    (hres : resolveDialInfo dp dt md = Except.ok d)
    (hphone : pyGetItem d phoneKeyChars = Except.ok (PyVal.str [])) :
    entrypointDial dialOk d =
      Except.ok [Effect.startSessionTask, Effect.shutdown] ∧
    ∀ pv, Effect.createSip pv ∉ [Effect.startSessionTask, Effect.shutdown] := by
  constructor
  · unfold entrypointDial
    simp [hphone, truthy]
  · intro pv
    simp

/-- Witness for `C7_no_dial_without_number`: metadata `{}` with empty
environment defaults resolves to an empty phone number; the dial phase
shuts down without dialing. -/
theorem C7_witness :
    entrypointDial true dialInfoAllDefaults =
      Except.ok [Effect.startSessionTask, Effect.shutdown] ∧
    ∀ pv, Effect.createSip pv ∉ [Effect.startSessionTask, Effect.shutdown] :=
  C7_no_dial_without_number [] [] (PyVal.str [lbraceChar, rbraceChar])
    dialInfoAllDefaults true rfl rfl

/-- **C8.**  For every malformed (non-JSON) string metadata of the shape
`pre ++ "phone_number" ++ separators ++ token ++ rest` — the separators
non-empty and in the regex separator class, the token a non-empty maximal
`[+\d]` run, and no earlier position matching the pattern — the fallback
extraction binds `phone_number` to exactly that token, character for
character, and resolution returns it unchanged. -/
theorem C8_regex_extraction_exact (dp dt pre seps tok rest : List Char)
    (hjson : jsonLoads (pre ++ (phoneKeyChars ++ (seps ++ (tok ++ rest)))) =
      Option.none)
    (hseps0 : seps ≠ []) (hseps : ∀ c ∈ seps, isSepChar c = true)
    (htok0 : tok ≠ []) (htok : ∀ c ∈ tok, isPhoneTokenChar c = true)
    (hrest : ∀ c, rest.head? = some c → isPhoneTokenChar c = false)
    (hpre : ∀ n, n < pre.length →
      matchLabelAt phoneKeyChars
        (List.drop n (pre ++ (phoneKeyChars ++ (seps ++ (tok ++ rest))))) =
        Option.none) :
    ∃ kvs, resolveDialInfo dp dt
        (PyVal.str (pre ++ (phoneKeyChars ++ (seps ++ (tok ++ rest))))) =
        Except.ok (PyVal.dict kvs) ∧
      dictLookup kvs phoneKeyChars = some (PyVal.str tok) := by
  have hsearch :
      searchLabel phoneKeyChars
        (pre ++ (phoneKeyChars ++ (seps ++ (tok ++ rest)))) = some tok := by
    rw [searchLabel_append phoneKeyChars pre _ hpre]
    exact searchLabel_of_matchLabelAt _ _ _
      (matchLabelAt_append phoneKeyChars seps tok rest hseps0 hseps htok0
        htok hrest)
  have hs : pre ++ (phoneKeyChars ++ (seps ++ (tok ++ rest))) ≠ [] := by
    intro h0
    rw [List.append_eq_nil, List.append_eq_nil] at h0
    exact absurd h0.2.1 (by decide)
  exact resolve_regex_phone dp dt _ tok hjson hs hsearch

/-- Witness for `C8_regex_extraction_exact`: the malformed metadata
`phone_number: +15551234567` (not valid JSON) yields exactly
`+15551234567`. -/
theorem C8_witness :
    ∃ kvs, resolveDialInfo [] []
        (PyVal.str ([] ++ (phoneKeyChars ++ (": ".data ++
          ("+15551234567".data ++ []))))) =
        Except.ok (PyVal.dict kvs) ∧
      dictLookup kvs phoneKeyChars = some (PyVal.str "+15551234567".data) :=
  C8_regex_extraction_exact [] [] [] ": ".data "+15551234567".data [] rfl
    (by decide) (by decide) (by decide) (by decide)
    (fun c hc => Option.noConfusion hc)
    (fun n hn => absurd hn (Nat.not_lt_zero n))

/-- **C9** (code defect).  The resolver's catch-all `except Exception`
guards only the parsing region (lines 184–214); the defaults block at
lines 217–222 sits outside it.  Valid JSON that is not an object passes
the guarded region untouched, and then `"phone_number" not in dial_info`
slash `dial_info["phone_number"] = ...` raises `TypeError`: metadata
`"[]"` makes resolution raise instead of returning a populated
`DialInfo`. -/
theorem C9_resolution_raises_on_nonobject_json :
    resolveDialInfo [] [] (PyVal.str "[]".data) =
      Except.error PyError.typeError := rfl

/-- **C10.**  With no remote participant bound (`participant is None`),
`end_call` and `detected_answering_machine` raise `AttributeError` from
dereferencing `self.participant.identity` instead of returning a result,
and `set_participant` is what establishes the binding. -/
theorem C10_unbound_participant_raises (env : Env) (s : OutboundCaller)
    (h : s.participant = Option.none) :
    end_call env s = Except.error PyError.attributeError ∧
    detected_answering_machine env s = Except.error PyError.attributeError ∧
    ∀ p, (set_participant s p).participant = some p := by
  unfold end_call detected_answering_machine set_participant
  rw [h]
  exact ⟨rfl, rfl, fun p => rfl⟩

/-- Witness for `C10_unbound_participant_raises`: a session created before
the dialed party answered. -/
theorem C10_witness :
    end_call envQuiet ⟨Option.none, PyVal.dict []⟩ =
      Except.error PyError.attributeError ∧
    detected_answering_machine envQuiet ⟨Option.none, PyVal.dict []⟩ =
      Except.error PyError.attributeError ∧
    ∀ p, (set_participant ⟨Option.none, PyVal.dict []⟩ p).participant = some p :=
  C10_unbound_participant_raises envQuiet ⟨Option.none, PyVal.dict []⟩ rfl

/-! ### Sanity checks of the embedding on concrete inputs -/

example : jsonLoads "[]".data = some (PyVal.list []) := rfl

example :
    searchLabel phoneKeyChars "phone_number: +15551234567".data =
      some "+15551234567".data := rfl

example :
    resolveDialInfo [] [] (PyVal.str mdPhoneOnly) =
      Except.ok (PyVal.dict kvsPhoneOnly) := rfl

example :
    resolveDialInfo [] [] (PyVal.str [lbraceChar, rbraceChar]) =
      Except.ok dialInfoAllDefaults := rfl

example :
    end_call ⟨true, false⟩ ⟨some "phone_user", PyVal.dict []⟩ =
      Except.ok (PyVal.none, ⟨some "phone_user", PyVal.dict []⟩,
        [Effect.deleteRoom]) := rfl

end VoiceAgent
